import Mathlib

/-!
Verification of the Oanda_Gold breakout trading bot.

Shallow embedding of the breakout + ADX strategy (src/breakout_adx_strategy.js)
and of the orchestrating bot loops (the main entry-point file): prices and
indicator values are rationals, timestamps are integers (milliseconds) or
naturals (candle identifiers), the mutable class fields of
BreakoutADXStrategy and GoldTradingBot become explicit state records that the
embedded functions take and return.  External effects (broker calls, file
persistence, clocks) become explicit parameters or oracle inputs; whether
saveState would have been invoked during a call is returned as a Bool.
-/

namespace OandaGold

/-- Trade direction, the JS strings LONG / SHORT. -/
inductive Dir where
  | LONG
  | SHORT
deriving DecidableEq, Repr

/-- A completed candle as consumed by the strategy: `time` is an abstract
identifier standing for the ISO timestamp string, O/H/L/C are rational
prices (the `complete` flag is dropped: every list passed to the strategy
has already been filtered to complete candles by the callers). -/
structure Candle where
  time : Nat
  open_ : Rat
  high : Rat
  low : Rat
  close : Rat
deriving DecidableEq, Repr, Inhabited

/-- The slice of `analyze`'s output that the strategy reads
(`analysis.indicators.{price, adx, rsi}`); adx / rsi may be null. -/
structure Analysis where
  price : Rat
  adx : Option Rat
  rsi : Option Rat
deriving DecidableEq, Repr

/-- The configuration fields (config.js) read by the embedded code.
Values are the env-variable parses; `defaultCfg` below holds the defaults. -/
structure Cfg where
  BREAKOUT_LOOKBACK : Nat
  ENABLE_MTF : Bool
  MTF_PULLBACK_PIPS : Rat
  MTF_MAX_WAIT_CANDLES : Nat
  MTF_EMA_PERIOD : Nat
  BREAKOUT_RSI_MAX_LONG : Rat
  BREAKOUT_RSI_MIN_SHORT : Rat
  BREAKOUT_MAX_DISTANCE_FROM_LEVEL : Rat
  BREAKOUT_MIN_CANDLE_POSITION : Rat
  ENABLE_TREND_CONTINUATION : Bool
  TREND_CONTINUATION_ADX_MIN : Rat
  TREND_CONTINUATION_PULLBACK_EMA : Nat
  BREAKOUT_CONFIRMATION_SECONDS : Nat
  TRADE_COOLDOWN_HOURS : Rat
  TRADING_START_HOUR : Nat
  TRADING_END_HOUR : Nat
  ENABLE_TRAILING_STOP : Bool
  ENABLE_STAGED_TP : Bool
  TRAILING_STOP_DISTANCE_PIPS : Rat
  TRAILING_ACTIVATION_PIPS : Rat
  BREAKOUT_TRAILING_ACTIVATION_PIPS : Rat
deriving DecidableEq, Repr

/-- config.js defaults for the embedded fields. -/
def defaultCfg : Cfg where
  BREAKOUT_LOOKBACK := 10
  ENABLE_MTF := true
  MTF_PULLBACK_PIPS := 50
  MTF_MAX_WAIT_CANDLES := 8
  MTF_EMA_PERIOD := 20
  BREAKOUT_RSI_MAX_LONG := 75
  BREAKOUT_RSI_MIN_SHORT := 25
  BREAKOUT_MAX_DISTANCE_FROM_LEVEL := 2000
  BREAKOUT_MIN_CANDLE_POSITION := 2/5
  ENABLE_TREND_CONTINUATION := true
  TREND_CONTINUATION_ADX_MIN := 25
  TREND_CONTINUATION_PULLBACK_EMA := 20
  BREAKOUT_CONFIRMATION_SECONDS := 60
  TRADE_COOLDOWN_HOURS := 4
  TRADING_START_HOUR := 8
  TRADING_END_HOUR := 22
  ENABLE_TRAILING_STOP := true
  ENABLE_STAGED_TP := false
  TRAILING_STOP_DISTANCE_PIPS := 150
  TRAILING_ACTIVATION_PIPS := 200
  BREAKOUT_TRAILING_ACTIVATION_PIPS := 350

/-- Config.pipsToPrice: for XAU_USD 1 pip = 0.01. -/
def pipsToPrice (pips : Rat) : Rat := pips * (1/100)

/-- Minimum ADX for a trending market (ADX_MIN constant in
breakout_adx_strategy.js). -/
def ADX_MIN : Rat := 20

/-- The mutable fields of the BreakoutADXStrategy instance (StrategyMemory,
the candle-close pending signal, the real-time breakout tracker, and the
real-time MTF pending entry). -/
structure StratState where
  lastCandleTime : Option Nat
  lastSignal : Option Dir
  previousHigh : Option Rat
  previousLow : Option Rat
  pendingSignal : Option Dir
  pendingSignalTime : Option Nat
  pendingBreakoutPrice : Option Rat
  h1CandlesChecked : Nat
  realtimeBreakoutDirection : Option Dir
  realtimeBreakoutTime : Option Int
  realtimeBreakoutPrice : Option Rat
  realtimeBreakoutLevel : Option Rat
  realtimeMTFPending : Option Dir
  realtimeMTFBreakoutPrice : Option Rat
  realtimeMTFTime : Option Int
  realtimeMTFBestPullback : Option Rat
deriving DecidableEq, Repr

/-- The all-null strategy state of a fresh BreakoutADXStrategy instance. -/
def initStrat : StratState where
  lastCandleTime := none
  lastSignal := none
  previousHigh := none
  previousLow := none
  pendingSignal := none
  pendingSignalTime := none
  pendingBreakoutPrice := none
  h1CandlesChecked := 0
  realtimeBreakoutDirection := none
  realtimeBreakoutTime := none
  realtimeBreakoutPrice := none
  realtimeBreakoutLevel := none
  realtimeMTFPending := none
  realtimeMTFBreakoutPrice := none
  realtimeMTFTime := none
  realtimeMTFBestPullback := none

/-- clearPendingSignal(): drops the candle-close pending entry and resets the
wait counter (the saveState() it performs is reported by the callers). -/
def clearPendingSignal (s : StratState) : StratState :=
  { s with pendingSignal := none, pendingSignalTime := none,
           pendingBreakoutPrice := none, h1CandlesChecked := 0 }

/-- clearRealtimeBreakout(): drops the intra-bar breakout tracker. -/
def clearRealtimeBreakout (s : StratState) : StratState :=
  { s with realtimeBreakoutDirection := none, realtimeBreakoutTime := none,
           realtimeBreakoutPrice := none, realtimeBreakoutLevel := none }

/-- clearRealtimeMTF(): drops the real-time MTF pending entry. -/
def clearRealtimeMTF (s : StratState) : StratState :=
  { s with realtimeMTFPending := none, realtimeMTFBreakoutPrice := none,
           realtimeMTFTime := none, realtimeMTFBestPullback := none }

/-- calculateEMA(prices, period): null below `period` prices, otherwise a
seed SMA over the first `period` prices followed by the usual EMA recursion
over the rest. -/
def calculateEMA (prices : List Rat) (period : Nat) : Option Rat :=
  if prices.length < period then none
  else
    let k : Rat := 2 / ((period : Rat) + 1)
    let ema0 : Rat := ((prices.take period).foldl (· + ·) 0) / (period : Rat)
    some ((prices.drop period).foldl (fun ema p => p * k + ema * (1 - k)) ema0)

/-- JS `l.slice(-k, -1)`: drop the last element, keep the (at most) k-1
elements before it.  The start index `l.length - k` clamps at 0 exactly as
Array.prototype.slice clamps negative indices. -/
def sliceLastWindow (l : List Candle) (k : Nat) : List Candle :=
  let start := l.length - k
  (l.drop start).take (l.length - 1 - start)

/-- The Donchian channel {high, low}. -/
structure Channel where
  high : Rat
  low : Rat
deriving DecidableEq, Repr

/-- calculateDonchianChannel(candles): null below BREAKOUT_LOOKBACK candles,
otherwise Math.max of the highs / Math.min of the lows over
candles.slice(-(lookback+1), -1).  (JS Math.max of an empty window would be
-Infinity; the window is nonempty whenever the callers' length guard
`candles.length >= lookback+1` holds and lookback >= 1, so the empty window
is represented as null.) -/
def calculateDonchianChannel (cfg : Cfg) (candles : List Candle) : Option Channel :=
  if candles.length < cfg.BREAKOUT_LOOKBACK then none
  else
    match sliceLastWindow candles (cfg.BREAKOUT_LOOKBACK + 1) with
    | [] => none
    | c :: rest =>
        some { high := rest.foldl (fun a x => max a x.high) c.high
               low := rest.foldl (fun a x => min a x.low) c.low }

/-- Result of checkTradeCooldown(). -/
structure CooldownStatus where
  active : Bool
  remainingMinutes : Int
deriving DecidableEq, Repr

/-- checkTradeCooldown(): inactive when no close has been recorded or the
configured cooldown is non-positive; otherwise active exactly while
`now - lastTradeCloseTime` is below TRADE_COOLDOWN_HOURS in milliseconds. -/
def checkTradeCooldown (cfg : Cfg) (lastTradeCloseTime : Option Int) (now : Int) :
    CooldownStatus :=
  match lastTradeCloseTime with
  | none => { active := false, remainingMinutes := 0 }
  | some t0 =>
      if cfg.TRADE_COOLDOWN_HOURS ≤ 0 then { active := false, remainingMinutes := 0 }
      else
        let cooldownMs : Rat := cfg.TRADE_COOLDOWN_HOURS * 60 * 60 * 1000
        let elapsed : Rat := ((now - t0 : Int) : Rat)
        let remaining : Rat := cooldownMs - elapsed
        if remaining ≤ 0 then { active := false, remainingMinutes := 0 }
        else { active := true, remainingMinutes := Int.ceil (remaining / 60000) }

/-- Result of checkTradingHours(). -/
structure HoursStatus where
  allowed : Bool
  currentHour : Nat
deriving DecidableEq, Repr

/-- checkTradingHours(): the current UK hour is a parameter (clock and
timezone extraction are external).  A start < end window is the normal
range check; otherwise the overnight branch allows hour >= start or
hour < end. -/
def checkTradingHours (cfg : Cfg) (currentHour : Nat) : HoursStatus :=
  let startHour := cfg.TRADING_START_HOUR
  let endHour := cfg.TRADING_END_HOUR
  if startHour < endHour then
    { allowed := decide (startHour ≤ currentHour ∧ currentHour < endHour)
      currentHour := currentHour }
  else
    { allowed := decide (startHour ≤ currentHour ∨ currentHour < endHour)
      currentHour := currentHour }

/-- Structured stand-ins for the reason strings produced by evaluateSetup /
evaluateH1Entry (the interpolated diagnostic text is abstracted to a tag). -/
inductive Reason where
  | waitingH1
  | insufficientData
  | channelUnavailable
  | firstRun
  | noNewCandle
  | bullishBreakout
  | bearishBreakout
  | breakoutFiltered
  | noBreakout
  | trendContinuation
  | h1PullbackEntry
  | breakoutWaitingH1
deriving DecidableEq, Repr

/-- Structured stand-ins for the reason strings of checkRealtimeBreakout /
checkRealtimeMTFEntry. -/
inductive RTReason where
  | noPendingMTF
  | mtfTimeout
  | waitingPullback
  | waitingFavorable
  | chasingMove
  | mtfEntry
  | noChannelData
  | backInsideChannel
  | noBreakoutRT
  | breakoutDetected
  | pendingConfirmation
  | filteredRT
  | confirmedAwaitPullback
  | realtimeSignal
deriving DecidableEq, Repr

/-- The object returned by evaluateSetup (and the refined MTF entry returned
through it).  The purely diagnostic channelHigh/channelLow echo fields are
omitted; absent JS fields are the defaults. -/
structure SetupResult where
  signal : Option Dir
  reason : Reason
  confidence : Nat
  pendingSignal : Option Dir := none
  entryPrice : Option Rat := none
  isMTFEntry : Bool := false
deriving DecidableEq, Repr

/-- The non-null return value of evaluateH1Entry (always carries
isMTFEntry = true and confidence 80 when lifted into a SetupResult). -/
structure EntryRes where
  signal : Dir
  entryPrice : Rat
  confidence : Nat
deriving DecidableEq, Repr

/-- `adx !== null && adx < c`. -/
def optLt (x : Option Rat) (c : Rat) : Bool :=
  match x with
  | some a => decide (a < c)
  | none => false

/-- `adx !== null && adx > c`. -/
def optGt (x : Option Rat) (c : Rat) : Bool :=
  match x with
  | some a => decide (c < a)
  | none => false

/-- The most recent candle `l[l.length - 1]` (callers guard nonemptiness). -/
def lastCandleOf (l : List Candle) : Candle := (l.getLast?).getD default

/-- The evaluateH1Entry pullback target: breakoutPrice minus (LONG) or plus
(SHORT) MTF_PULLBACK_PIPS * 0.01. -/
def h1pullbackTarget (cfg : Cfg) (isLong : Bool) (breakoutPrice : Rat) : Rat :=
  if isLong then breakoutPrice - cfg.MTF_PULLBACK_PIPS * (1/100)
  else breakoutPrice + cfg.MTF_PULLBACK_PIPS * (1/100)

/-- The evaluateH1Entry pullback level.  LONG: `Math.max(h1EMA || 0, target)`;
SHORT: `Math.min(h1EMA || Infinity, target)` — a null (or JS-falsy 0) EMA
contributes 0 on the LONG side and +Infinity (hence just the target) on the
SHORT side. -/
def h1pullbackLevel (isLong : Bool) (ema : Option Rat) (target : Rat) : Rat :=
  if isLong then max (ema.getD 0) target
  else
    match ema with
    | some e => if e = 0 then target else min e target
    | none => target

/-- evaluateH1Entry's entry trigger: price pulled back to the level and the
entry-timeframe candle confirms the direction. -/
def h1entryFound (isLong : Bool) (level : Rat) (lastH1 : Candle) : Bool :=
  if isLong then decide (lastH1.low ≤ level) && decide (lastH1.open_ < lastH1.close)
  else decide (level ≤ lastH1.high) && decide (lastH1.close < lastH1.open_)

/-- The chase guard shared by both pullback refiners: entry more than a fixed
$1.00 tolerance past the original breakout price. -/
def overshootChasing (isLong : Bool) (entryPrice breakoutPrice : Rat) : Bool :=
  if isLong then decide (breakoutPrice + 1 < entryPrice)
  else decide (entryPrice < breakoutPrice - 1)

/-- evaluateH1Entry(h1Candles): the bar-counted pullback refiner for a
candle-close pending signal.  Returns the refined entry (if found), the
successor strategy state, and whether saveState() was invoked. -/
def evaluateH1Entry (cfg : Cfg) (s : StratState) (h1Candles : Option (List Candle)) :
    Option EntryRes × StratState × Bool :=
  if s.pendingSignal = none ∨ cfg.ENABLE_MTF = false then (none, s, false)
  else
    let s1 := { s with h1CandlesChecked := s.h1CandlesChecked + 1 }
    if cfg.MTF_MAX_WAIT_CANDLES < s1.h1CandlesChecked then
      (none, clearPendingSignal s1, true)
    else
      match h1Candles with
      | none => (none, s1, false)
      | some l =>
          if l.length < cfg.MTF_EMA_PERIOD + 5 then (none, s1, false)
          else
            let isLong := decide (s.pendingSignal = some Dir.LONG)
            let breakoutPrice := s.pendingBreakoutPrice.getD 0
            let h1EMA := calculateEMA (l.map Candle.close) cfg.MTF_EMA_PERIOD
            let lastH1 := lastCandleOf l
            let level := h1pullbackLevel isLong h1EMA (h1pullbackTarget cfg isLong breakoutPrice)
            if h1entryFound isLong level lastH1 then
              if overshootChasing isLong lastH1.close breakoutPrice then
                -- chasing move: reject this bar but keep the pending signal
                (none, s1, false)
              else
                (some { signal := (s.pendingSignal.getD Dir.LONG)
                        entryPrice := lastH1.close
                        confidence := 80 },
                 clearPendingSignal s1, true)
            else (none, s1, false)

/-- The signal/reason/confidence outcome of evaluating one new completed bar
against the previous channel (the body of evaluateSetup between the
breakout comparison and the memory update). -/
structure NewBarEval where
  signal : Option Dir
  reason : Reason
  confidence : Nat
deriving DecidableEq, Repr

/-- The filter chain + trend-continuation logic of evaluateSetup on a new
bar, given the previous channel values (non-null here by the callers'
first-run guard). -/
def evaluateNewBar (cfg : Cfg) (prevHigh prevLow : Rat) (lastSignal : Option Dir)
    (analysis : Analysis) (candles : List Candle) (lastCandle : Candle) : NewBarEval :=
  let currentPrice := lastCandle.close
  let isBullishCandle := decide (lastCandle.open_ < lastCandle.close)
  let isBearishCandle := decide (lastCandle.close < lastCandle.open_)
  let adx := analysis.adx
  let rsi := analysis.rsi
  let candleRange := lastCandle.high - lastCandle.low
  let pricePosition :=
    if 0 < candleRange then (currentPrice - lastCandle.low) / candleRange else (1/2 : Rat)
  if prevHigh < currentPrice then
    -- LONG candidate with the ordered filter chain
    let adxFail := optLt adx ADX_MIN
    let candleAdxOverride := optGt adx 40
    let candleFail := !isBullishCandle && !candleAdxOverride
    let adxOverride := optGt adx 35
    let rsiFail := optGt rsi cfg.BREAKOUT_RSI_MAX_LONG && !adxOverride
    let distanceFromBreakout := currentPrice - prevHigh
    let distFail := decide (pipsToPrice cfg.BREAKOUT_MAX_DISTANCE_FROM_LEVEL < distanceFromBreakout)
    let posFail := decide (pricePosition < cfg.BREAKOUT_MIN_CANDLE_POSITION)
    if adxFail || candleFail || rsiFail || distFail || posFail then
      { signal := none, reason := .breakoutFiltered, confidence := 50 }
    else
      { signal := some Dir.LONG, reason := .bullishBreakout
        confidence := 50 + (if optGt adx 25 then 10 else 0) + (if optGt adx 30 then 10 else 0)
          + (if 2 < distanceFromBreakout then 5 else 0)
          + (if 5 < distanceFromBreakout then 5 else 0) }
  else if currentPrice < prevLow then
    -- SHORT candidate with the mirrored filter chain
    let adxFail := optLt adx ADX_MIN
    let candleAdxOverride := optGt adx 40
    let candleFail := !isBearishCandle && !candleAdxOverride
    let adxOverride := optGt adx 35
    let rsiFail := optLt rsi cfg.BREAKOUT_RSI_MIN_SHORT && !adxOverride
    let distanceFromBreakout := prevLow - currentPrice
    let distFail := decide (pipsToPrice cfg.BREAKOUT_MAX_DISTANCE_FROM_LEVEL < distanceFromBreakout)
    let posFail := decide (1 - cfg.BREAKOUT_MIN_CANDLE_POSITION < pricePosition)
    if adxFail || candleFail || rsiFail || distFail || posFail then
      { signal := none, reason := .breakoutFiltered, confidence := 50 }
    else
      { signal := some Dir.SHORT, reason := .bearishBreakout
        confidence := 50 + (if optGt adx 25 then 10 else 0) + (if optGt adx 30 then 10 else 0)
          + (if 2 < distanceFromBreakout then 5 else 0)
          + (if 5 < distanceFromBreakout then 5 else 0) }
  else
    -- no breakout: trend-continuation check
    match lastSignal with
    | some d =>
        if cfg.ENABLE_TREND_CONTINUATION &&
            (match adx with
             | some a => decide (cfg.TREND_CONTINUATION_ADX_MIN ≤ a)
             | none => false) then
          match calculateEMA (candles.map Candle.close) cfg.TREND_CONTINUATION_PULLBACK_EMA with
          | some ema =>
              let nearEMA := decide (|currentPrice - ema| ≤ 2)
              let validPullback :=
                if d = Dir.LONG then
                  nearEMA && isBullishCandle && decide (ema - 2 ≤ currentPrice)
                else
                  nearEMA && isBearishCandle && decide (currentPrice ≤ ema + 2)
              if validPullback then
                { signal := some d, reason := .trendContinuation, confidence := 70 }
              else { signal := none, reason := .noBreakout, confidence := 50 }
          | none => { signal := none, reason := .noBreakout, confidence := 50 }
        else { signal := none, reason := .noBreakout, confidence := 50 }
    | none => { signal := none, reason := .noBreakout, confidence := 50 }

/-- evaluateSetup(analysis, candles, h1Candles): the candle-close breakout
detector.  Returns the result, the successor strategy state, and whether
saveState() was invoked during the call. -/
def evaluateSetup (cfg : Cfg) (s : StratState) (analysis : Analysis)
    (candles : List Candle) (h1Candles : Option (List Candle)) :
    SetupResult × StratState × Bool :=
  if s.pendingSignal ≠ none ∧ cfg.ENABLE_MTF = true ∧ h1Candles ≠ none then
    -- pending MTF signal: try the H1 refinement, otherwise keep waiting
    match evaluateH1Entry cfg s h1Candles with
    | (some r, s1, sv) =>
        ({ signal := some r.signal, reason := .h1PullbackEntry, confidence := r.confidence,
           entryPrice := some r.entryPrice, isMTFEntry := true }, s1, sv)
    | (none, s1, sv) =>
        ({ signal := none, reason := .waitingH1, confidence := 0,
           pendingSignal := s1.pendingSignal }, s1, sv)
  else if candles.length < cfg.BREAKOUT_LOOKBACK + 1 then
    ({ signal := none, reason := .insufficientData, confidence := 0 }, s, false)
  else
    let lastCandle := lastCandleOf candles
    let currentCandleTime := lastCandle.time
    match calculateDonchianChannel cfg candles with
    | none => ({ signal := none, reason := .channelUnavailable, confidence := 0 }, s, false)
    | some channel =>
        if s.previousHigh = none ∨ s.previousLow = none then
          -- first run: store the channel, emit nothing
          ({ signal := none, reason := .firstRun, confidence := 0 },
           { s with previousHigh := some channel.high, previousLow := some channel.low,
                    lastCandleTime := some currentCandleTime }, true)
        else if s.lastCandleTime = some currentCandleTime then
          ({ signal := none, reason := .noNewCandle, confidence := 0 }, s, false)
        else
          let ev := evaluateNewBar cfg (s.previousHigh.getD 0) (s.previousLow.getD 0)
            s.lastSignal analysis candles lastCandle
          let s1 := { s with previousHigh := some channel.high,
                             previousLow := some channel.low,
                             lastCandleTime := some currentCandleTime }
          match ev.signal with
          | some d =>
              if cfg.ENABLE_MTF = true then
                let s2 := { s1 with pendingSignal := some d,
                                    pendingSignalTime := some currentCandleTime,
                                    pendingBreakoutPrice := some lastCandle.close,
                                    h1CandlesChecked := 0 }
                match h1Candles with
                | some _ =>
                    (match evaluateH1Entry cfg s2 h1Candles with
                     | (some r, s3, _) =>
                         ({ signal := some r.signal, reason := .h1PullbackEntry,
                            confidence := r.confidence, entryPrice := some r.entryPrice,
                            isMTFEntry := true }, s3, true)
                     | (none, s3, _) =>
                         ({ signal := none, reason := .breakoutWaitingH1, confidence := 0,
                            pendingSignal := some d }, s3, true))
                | none =>
                    ({ signal := none, reason := .breakoutWaitingH1, confidence := 0,
                       pendingSignal := some d }, s2, true)
              else
                ({ signal := some d, reason := ev.reason, confidence := ev.confidence },
                 { s1 with lastSignal := some d }, true)
          | none =>
              ({ signal := none, reason := ev.reason, confidence := ev.confidence }, s1, true)

/-- The MTF real-time wait budget in milliseconds:
MTF_MAX_WAIT_CANDLES * 15 * 60 * 1000 (M15 candles). -/
def mtfMaxWaitMs (cfg : Cfg) : Int := (cfg.MTF_MAX_WAIT_CANDLES : Int) * 15 * 60 * 1000

/-- The best-pullback update of checkRealtimeMTFEntry: first price seen, then
the lowest price for a pending LONG / the highest for a pending SHORT. -/
def mtfBestUpdate (isLong : Bool) (best : Option Rat) (currentPrice : Rat) : Rat :=
  match best with
  | none => currentPrice
  | some b =>
      if isLong then (if currentPrice < b then currentPrice else b)
      else (if b < currentPrice then currentPrice else b)

/-- Pullback achieved so far, measured from the breakout price toward the
best pullback price. -/
def mtfPullbackAmount (isLong : Bool) (breakoutPrice best : Rat) : Rat :=
  if isLong then breakoutPrice - best else best - breakoutPrice

/-- Renewed movement in the breakout direction: a $0.50 bounce above (LONG)
or drop below (SHORT) the best pullback price. -/
def mtfMovingFavorably (isLong : Bool) (currentPrice best : Rat) : Bool :=
  if isLong then decide (best + 1/2 < currentPrice)
  else decide (currentPrice < best - 1/2)

/-- The object returned by checkRealtimeMTFEntry. -/
structure RTMTFRes where
  signal : Option Dir := none
  pending : Bool := false
  reason : RTReason
  confidence : Nat := 0
  entryPrice : Option Rat := none
deriving DecidableEq, Repr

/-- checkRealtimeMTFEntry(currentPrice): the continuous (time-bounded)
pullback refiner for a confirmed real-time breakout.  `now` is the
Date.now() reading. -/
def checkRealtimeMTFEntry (cfg : Cfg) (s : StratState) (currentPrice : Rat) (now : Int) :
    RTMTFRes × StratState :=
  match s.realtimeMTFPending with
  | none => ({ reason := .noPendingMTF }, s)
  | some d =>
      let isLong := decide (d = Dir.LONG)
      let breakoutPrice := s.realtimeMTFBreakoutPrice.getD 0
      let pullbackTarget := pipsToPrice cfg.MTF_PULLBACK_PIPS
      let elapsed := now - s.realtimeMTFTime.getD 0
      if mtfMaxWaitMs cfg < elapsed then
        ({ reason := .mtfTimeout }, clearRealtimeMTF s)
      else
        let best := mtfBestUpdate isLong s.realtimeMTFBestPullback currentPrice
        let s1 := { s with realtimeMTFBestPullback := some best }
        if mtfPullbackAmount isLong breakoutPrice best < pullbackTarget then
          ({ pending := true, reason := .waitingPullback }, s1)
        else if !(mtfMovingFavorably isLong currentPrice best) then
          ({ pending := true, reason := .waitingFavorable }, s1)
        else if overshootChasing isLong currentPrice breakoutPrice then
          -- chasing move: reject this tick but keep the pending signal
          ({ pending := true, reason := .chasingMove }, s1)
        else
          ({ signal := some d, reason := .mtfEntry, confidence := 70,
             entryPrice := some currentPrice }, clearRealtimeMTF s1)

/-- The object returned by checkRealtimeBreakout. -/
structure RTBreakRes where
  signal : Option Dir := none
  pending : Bool := false
  pendingMTF : Bool := false
  reason : RTReason
  confidence : Nat := 0
  entryPrice : Option Rat := none
deriving DecidableEq, Repr

/-- checkRealtimeBreakout(currentPrice, adx, rsi): the intra-bar breakout
detector with its confirmation window and filter chain. -/
def checkRealtimeBreakout (cfg : Cfg) (s : StratState) (currentPrice : Rat)
    (adx rsi : Option Rat) (now : Int) : RTBreakRes × StratState :=
  if s.previousHigh = none ∨ s.previousLow = none then
    ({ reason := .noChannelData }, s)
  else
    let ph := s.previousHigh.getD 0
    let pl := s.previousLow.getD 0
    let confirmationMs : Int := (cfg.BREAKOUT_CONFIRMATION_SECONDS : Int) * 1000
    if ¬(ph < currentPrice) ∧ ¬(currentPrice < pl) then
      -- back inside the channel: wick filter clears any tracking
      if s.realtimeBreakoutDirection ≠ none then
        ({ reason := .backInsideChannel }, clearRealtimeBreakout s)
      else ({ reason := .noBreakoutRT }, s)
    else
      let direction := if ph < currentPrice then Dir.LONG else Dir.SHORT
      let breakoutLevel := if ph < currentPrice then ph else pl
      let distanceFromLevel := if ph < currentPrice then currentPrice - ph else pl - currentPrice
      if s.realtimeBreakoutDirection ≠ some direction then
        -- new breakout (or direction flip): start tracking
        ({ pending := true, reason := .breakoutDetected },
         { s with realtimeBreakoutDirection := some direction,
                  realtimeBreakoutTime := some now,
                  realtimeBreakoutPrice := some currentPrice,
                  realtimeBreakoutLevel := some breakoutLevel })
      else if now - s.realtimeBreakoutTime.getD 0 < confirmationMs then
        ({ pending := true, reason := .pendingConfirmation }, s)
      else
        let momentumValid :=
          if direction = Dir.LONG then decide (s.realtimeBreakoutPrice.getD 0 ≤ currentPrice)
          else decide (currentPrice ≤ s.realtimeBreakoutPrice.getD 0)
        let adxFail := optLt adx ADX_MIN
        let adxOverride := optGt adx 35
        let rsiFail :=
          if direction = Dir.LONG then optGt rsi cfg.BREAKOUT_RSI_MAX_LONG && !adxOverride
          else optLt rsi cfg.BREAKOUT_RSI_MIN_SHORT && !adxOverride
        let distFail := decide (pipsToPrice cfg.BREAKOUT_MAX_DISTANCE_FROM_LEVEL < distanceFromLevel)
        if !momentumValid || adxFail || rsiFail || distFail then
          ({ reason := .filteredRT }, clearRealtimeBreakout s)
        else
          let s1 := { clearRealtimeBreakout s with lastSignal := some direction }
          if cfg.ENABLE_MTF = true then
            ({ pendingMTF := true, reason := .confirmedAwaitPullback },
             { s1 with realtimeMTFPending := some direction,
                       realtimeMTFBreakoutPrice := some currentPrice,
                       realtimeMTFTime := some now,
                       realtimeMTFBestPullback := some currentPrice })
          else
            ({ signal := some direction, reason := .realtimeSignal,
               confidence := 60 + (if optGt adx 25 then 10 else 0)
                 + (if optGt adx 30 then 10 else 0)
                 + (if 2 < distanceFromLevel then 5 else 0),
               entryPrice := some currentPrice }, s1)

/-- The per-trade record kept in activePositions and mutated by
monitorPositions (fields read by the staged-TP and trailing-stop blocks). -/
structure Tracked where
  units : Int
  entryPrice : Rat
  takeProfit1 : Rat
  takeProfit2 : Rat
  tp1Hit : Bool
  bestPrice : Rat
  currentStopLoss : Rat
  isBreakoutTrade : Bool
deriving DecidableEq, Repr

/-- One monitoring tick's external observations for a single open trade:
the two getPrice readings of the tick (the TP1 block and the trailing block
each fetch the price) and whether the broker calls of each block succeeded. -/
structure MonInput where
  price1 : Rat
  price2 : Rat
  partialOk : Bool
  modifyOk : Bool
deriving DecidableEq, Repr

/-- The trailing-stop block of monitorPositions for one tracked trade:
after activation (TP1 hit or enough favorable movement), on a new best
price the candidate stop (price minus or plus the trail distance, by
direction) is applied only when it
improves on tracked.currentStopLoss; a failed modifyTrade leaves the stored
stop untouched (bestPrice was already advanced). -/
def trailingBlock (cfg : Cfg) (t : Tracked) (price : Rat) (modifyOk : Bool) : Tracked :=
  if cfg.ENABLE_TRAILING_STOP = true then
    let isLong := 0 < t.units
    let trailDistance := pipsToPrice cfg.TRAILING_STOP_DISTANCE_PIPS
    let profitMove := if isLong then price - t.entryPrice else t.entryPrice - price
    let activationPips :=
      if t.isBreakoutTrade then cfg.BREAKOUT_TRAILING_ACTIVATION_PIPS
      else cfg.TRAILING_ACTIVATION_PIPS
    if t.tp1Hit = true ∨ pipsToPrice activationPips ≤ profitMove then
      if (if isLong then t.bestPrice < price else price < t.bestPrice) then
        let t2 := { t with bestPrice := price }
        let newStopLoss := if isLong then price - trailDistance else price + trailDistance
        if (if isLong then t2.currentStopLoss < newStopLoss else newStopLoss < t2.currentStopLoss) then
          if modifyOk then { t2 with currentStopLoss := newStopLoss } else t2
        else t2
      else t
    else t
  else t

/-- The per-trade body of the monitorPositions loop: the staged-TP block
(which can set tp1Hit, skipping the rest of the trade's tick when the
computed partial-close units floor to zero, mirroring the JS `continue`)
followed by the trailing-stop block.  The breakeven modifyTrade performed at
TP1 does not touch tracked.currentStopLoss, exactly as in the source. -/
def monitorTradeTick (cfg : Cfg) (t : Tracked) (inp : MonInput) : Tracked :=
  if cfg.ENABLE_STAGED_TP = true ∧ t.tp1Hit = false then
    let isLong := 0 < t.units
    if (if isLong then t.takeProfit1 ≤ inp.price1 else inp.price1 ≤ t.takeProfit1) then
      let closeUnits := t.units.natAbs * 3 / 5
      if closeUnits = 0 then t
      else
        let t1 := if inp.partialOk then { t with tp1Hit := true } else t
        trailingBlock cfg t1 inp.price2 inp.modifyOk
    else trailingBlock cfg t inp.price2 inp.modifyOk
  else trailingBlock cfg t inp.price2 inp.modifyOk

/-- A sequence of monitoring ticks applied to one tracked trade. -/
def runMonitor (cfg : Cfg) (t : Tracked) (inputs : List MonInput) : Tracked :=
  inputs.foldl (monitorTradeTick cfg) t

/-- A sequence of checkRealtimeMTFEntry calls (price and Date.now() reading
per call), keeping only the state. -/
def runMTFCalls (cfg : Cfg) (s : StratState) (inputs : List (Rat × Int)) : StratState :=
  inputs.foldl (fun st pi => (checkRealtimeMTFEntry cfg st pi.1 pi.2).2) s

/-- Bot-level state for the orchestration loops (GoldTradingBot).  The bot
trades a single instrument and it tracks at most one position in it;
`positionOpen` identifies the activePositions entry with the broker's
open-trade list for the instrument (the happy-path broker model: orders
that report success are open until a closure event removes them). -/
structure BotState where
  strat : StratState
  positionOpen : Bool
  lastTradeCloseTime : Option Int
deriving DecidableEq, Repr

/-- The bot state right after construction with no persisted files. -/
def initBot : BotState where
  strat := initStrat
  positionOpen := false
  lastTradeCloseTime := none

/-- External observations consumed by one scanMarket tick: the fetched
complete candles (primary and entry timeframe), the technical analysis of
the primary candles, the clock, and whether position sizing/risk checks and
the order placement succeed.  The Triple Confirmation strategy that
scanMarket also evaluates is private to that strategy object and only
feeds logging / hypothetical tracking, so it is not modelled. -/
structure ScanInput where
  analysis : Analysis
  candles : List Candle
  h1Candles : Option (List Candle)
  now : Int
  nowHour : Nat
  riskOk : Bool
  orderOk : Bool
deriving DecidableEq, Repr

/-- scanMarket(): evaluate the breakout strategy on the candle close, then
— only when it emitted a signal — re-check the open-position, cooldown and
trading-hours gates before executing the trade.  Note the strategy
evaluation (which may create pendingSignal) runs before any of the gates. -/
def scanMarketStep (cfg : Cfg) (bs : BotState) (inp : ScanInput) : BotState :=
  if inp.candles.length < 100 then bs
  else
    match evaluateSetup cfg bs.strat inp.analysis inp.candles inp.h1Candles with
    | (res, s1, _) =>
        let bs1 := { bs with strat := s1 }
        match res.signal with
        | none => bs1
        | some _ =>
            if bs1.positionOpen then bs1
            else if (checkTradeCooldown cfg bs1.lastTradeCloseTime inp.now).active then bs1
            else if !(checkTradingHours cfg inp.nowHour).allowed then bs1
            else if inp.riskOk && inp.orderOk then { bs1 with positionOpen := true }
            else bs1

/-- External observations consumed by one checkRealtimeBreakout tick. -/
structure RTInput where
  price : Rat
  adx : Option Rat
  rsi : Option Rat
  now : Int
  nowHour : Nat
  candlesOk : Bool
  riskOk : Bool
  orderOk : Bool
deriving DecidableEq, Repr

/-- The tail of the realtime tick after the pending-MTF handling: the
indicator-candle fetch guard, checkRealtimeBreakout, and a possible direct
entry when MTF refinement is disabled. -/
def realtimeBreakoutPhase (cfg : Cfg) (bs : BotState) (inp : RTInput) : BotState :=
  if !inp.candlesOk then bs
  else
    match checkRealtimeBreakout cfg bs.strat inp.price inp.adx inp.rsi inp.now with
    | (r, s1) =>
        let bs1 := { bs with strat := s1 }
        if r.pending then bs1
        else if r.pendingMTF then bs1
        else
          match r.signal with
          | none => bs1
          | some _ => if inp.riskOk && inp.orderOk then { bs1 with positionOpen := true } else bs1

/-- checkRealtimeBreakout() bot tick (the fast loop): gate on an existing
position (clearing any realtime MTF pending while one is open), cooldown,
trading hours, and a pending candle-close signal; then feed a pending
realtime MTF entry to checkRealtimeMTFEntry (executing the refined entry on
success, falling through to fresh breakout detection when the pending was
timed out), and finally run fresh intra-bar breakout detection. -/
def realtimeStep (cfg : Cfg) (bs : BotState) (inp : RTInput) : BotState :=
  if bs.positionOpen then
    if bs.strat.realtimeMTFPending ≠ none then { bs with strat := clearRealtimeMTF bs.strat }
    else bs
  else if (checkTradeCooldown cfg bs.lastTradeCloseTime inp.now).active then bs
  else if !(checkTradingHours cfg inp.nowHour).allowed then bs
  else if bs.strat.pendingSignal ≠ none then bs
  else if bs.strat.realtimeMTFPending ≠ none then
    match checkRealtimeMTFEntry cfg bs.strat inp.price inp.now with
    | (r, s1) =>
        let bs1 := { bs with strat := s1 }
        if r.pending then bs1
        else
          match r.signal with
          | some _ => if inp.riskOk && inp.orderOk then { bs1 with positionOpen := true } else bs1
          | none => realtimeBreakoutPhase cfg bs1 inp
  else realtimeBreakoutPhase cfg bs inp

/-- External observations consumed by one monitorPositions tick at the
bot-state level: whether the broker's open-trade list no longer contains
the tracked trade (a closure that happened externally) and the clock. -/
structure MonStepInput where
  closedAtBroker : Bool
  now : Int
deriving DecidableEq, Repr

/-- monitorPositions() bot tick, restricted to the fields of BotState: a
tracked trade absent from the broker's open-trade list is dropped from
activePositions and arms the cooldown timer with Date.now().  The staged-TP
and trailing mutations of the still-open trade touch only the per-trade
record (monitorTradeTick above), not these fields. -/
def monitorStep (_cfg : Cfg) (bs : BotState) (inp : MonStepInput) : BotState :=
  if bs.positionOpen ∧ inp.closedAtBroker then
    { bs with positionOpen := false, lastTradeCloseTime := some inp.now }
  else bs

/-- One step of any of the three polling loops. -/
inductive BotStep where
  | scan (inp : ScanInput)
  | realtime (inp : RTInput)
  | monitor (inp : MonStepInput)
deriving DecidableEq, Repr

/-- Apply one loop tick. -/
def applyStep (cfg : Cfg) (bs : BotState) : BotStep → BotState
  | .scan inp => scanMarketStep cfg bs inp
  | .realtime inp => realtimeStep cfg bs inp
  | .monitor inp => monitorStep cfg bs inp

/-- Run a sequence of loop ticks from a state. -/
def runSteps (cfg : Cfg) (bs : BotState) (steps : List BotStep) : BotState :=
  steps.foldl (applyStep cfg) bs

/-- Following the words of claim C8: the lookback bars immediately preceding
the newest bar, excluding the newest bar itself (the last `lookback`
elements of the list with its final element removed). -/
def windowC8 (candles : List Candle) (lookback : Nat) : List Candle :=
  (candles.dropLast).drop (candles.dropLast.length - lookback)

/-! Helper lemmas about foldl-computed extrema and the JS slice window. -/

lemma le_foldl_max (l : List Rat) (init : Rat) : init ≤ l.foldl max init := by
  induction l generalizing init with
  | nil => exact le_refl _
  | cons a t ih => exact le_trans (le_max_left init a) (ih (max init a))

lemma foldl_max_ub (l : List Rat) (init : Rat) : ∀ x ∈ l, x ≤ l.foldl max init := by
  induction l generalizing init with
  | nil => intro x hx; cases hx
  | cons a t ih =>
      intro x hx
      rcases List.mem_cons.mp hx with h | h
      · subst h; exact le_trans (le_max_right init x) (le_foldl_max t _)
      · exact ih (max init a) x h

lemma foldl_max_mem (l : List Rat) (init : Rat) :
    l.foldl max init = init ∨ l.foldl max init ∈ l := by
  induction l generalizing init with
  | nil => left; rfl
  | cons a t ih =>
      rw [List.foldl_cons]
      rcases ih (max init a) with h | h
      · rcases max_choice init a with hm | hm
        · left; rw [h, hm]
        · right; rw [h, hm]; exact List.mem_cons_self a t
      · right; exact List.mem_cons_of_mem a h

lemma foldl_min_le (l : List Rat) (init : Rat) : l.foldl min init ≤ init := by
  induction l generalizing init with
  | nil => exact le_refl _
  | cons a t ih => exact le_trans (ih (min init a)) (min_le_left init a)

lemma foldl_min_lb (l : List Rat) (init : Rat) : ∀ x ∈ l, l.foldl min init ≤ x := by
  induction l generalizing init with
  | nil => intro x hx; cases hx
  | cons a t ih =>
      intro x hx
      rcases List.mem_cons.mp hx with h | h
      · subst h; exact le_trans (foldl_min_le t _) (min_le_right init x)
      · exact ih (min init a) x h

lemma foldl_min_mem (l : List Rat) (init : Rat) :
    l.foldl min init = init ∨ l.foldl min init ∈ l := by
  induction l generalizing init with
  | nil => left; rfl
  | cons a t ih =>
      rw [List.foldl_cons]
      rcases ih (min init a) with h | h
      · rcases min_choice init a with hm | hm
        · left; rw [h, hm]
        · right; rw [h, hm]; exact List.mem_cons_self a t
      · right; exact List.mem_cons_of_mem a h

lemma sliceLastWindow_eq_windowC8 (candles : List Candle) (lb : Nat)
    (h : lb + 1 ≤ candles.length) :
    sliceLastWindow candles (lb + 1) = windowC8 candles lb := by
  unfold sliceLastWindow windowC8
  dsimp only
  rw [List.length_dropLast, List.dropLast_eq_take, List.drop_take]
  have e1 : candles.length - 1 - lb = candles.length - (lb + 1) := by omega
  have e2 : candles.length - 1 - (candles.length - (lb + 1)) = lb := by omega
  have e3 : candles.length - 1 - (candles.length - 1 - lb) = lb := by omega
  rw [e3, e2, e1]

lemma windowC8_length (candles : List Candle) (lb : Nat) (h : lb + 1 ≤ candles.length) :
    (windowC8 candles lb).length = lb := by
  unfold windowC8
  rw [List.length_drop, List.length_dropLast]
  omega

/-! ## The claims -/

/-- Claim C10: when TRADING_START_HOUR equals TRADING_END_HOUR the overnight
branch of checkTradingHours makes the degenerate window behave as
always-open — every hour of the day is allowed. -/
theorem tradingHours_degenerate_window_open (cfg : Cfg) (currentHour : Nat)
    (h : cfg.TRADING_START_HOUR = cfg.TRADING_END_HOUR) :
    (checkTradingHours cfg currentHour).allowed = true := by
  unfold checkTradingHours
  rw [h, if_neg (lt_irrefl cfg.TRADING_END_HOUR)]
  simp only [decide_eq_true_eq]
  omega

/-- Witness for C10: an 8-to-8 window allows hour 3. -/
theorem tradingHours_degenerate_window_open_witness :
    (checkTradingHours
      { defaultCfg with TRADING_START_HOUR := 8, TRADING_END_HOUR := 8 } 3).allowed = true :=
  tradingHours_degenerate_window_open
    { defaultCfg with TRADING_START_HOUR := 8, TRADING_END_HOUR := 8 } 3 rfl

/-- Claim C6: with a recorded closure time and a positive configured
cooldown, checkTradeCooldown reports active exactly while the elapsed time
since the closure is below TRADE_COOLDOWN_HOURS (in milliseconds), and
inactive from the moment the cooldown has fully elapsed. -/
theorem tradeCooldown_active_iff (cfg : Cfg) (t0 now : Int)
    (hpos : 0 < cfg.TRADE_COOLDOWN_HOURS) :
    (((now - t0 : Int) : Rat) < cfg.TRADE_COOLDOWN_HOURS * 60 * 60 * 1000 →
      (checkTradeCooldown cfg (some t0) now).active = true) ∧
    (cfg.TRADE_COOLDOWN_HOURS * 60 * 60 * 1000 ≤ ((now - t0 : Int) : Rat) →
      (checkTradeCooldown cfg (some t0) now).active = false) := by
  simp only [checkTradeCooldown]
  rw [if_neg (not_le.mpr hpos)]
  constructor
  · intro h
    rw [if_neg (by push_neg; linarith)]
  · intro h
    rw [if_pos (by linarith)]

/-- Witness for C6: default 4-hour cooldown, closure at t0 = 0; at
t = 1000 ms the cooldown is still active. -/
theorem tradeCooldown_active_iff_witness :
    (checkTradeCooldown defaultCfg (some 0) 1000).active = true :=
  (tradeCooldown_active_iff defaultCfg 0 1000 (by norm_num [defaultCfg])).1
    (by norm_num [defaultCfg])

/-- Claim C7: with fewer than lookback+1 completed candles (and no pending
MTF wait hijacking the call), evaluateSetup returns the soft
insufficient-data no-signal result and leaves the state untouched — the
embedded function is total, so no exception is possible; moreover
calculateDonchianChannel's own guard returns null below lookback candles. -/
theorem insufficientData_soft_no_signal (cfg : Cfg) (s : StratState) (analysis : Analysis)
    (candles : List Candle) (h1Candles : Option (List Candle))
    (hp : s.pendingSignal = none)
    (hlen : candles.length < cfg.BREAKOUT_LOOKBACK + 1) :
    evaluateSetup cfg s analysis candles h1Candles
      = ({ signal := none, reason := .insufficientData, confidence := 0 }, s, false) ∧
    (candles.length < cfg.BREAKOUT_LOOKBACK → calculateDonchianChannel cfg candles = none) := by
  constructor
  · unfold evaluateSetup
    rw [if_neg (by simp [hp]), if_pos hlen]
  · intro h
    unfold calculateDonchianChannel
    rw [if_pos h]

/-- Witness for C7: one candle with the default 10-bar lookback. -/
theorem insufficientData_soft_no_signal_witness :
    evaluateSetup defaultCfg initStrat { price := 2000, adx := some 30, rsi := some 50 }
        [{ time := 9, open_ := 2000, high := 2001, low := 1999, close := 2000 }] none
      = ({ signal := none, reason := .insufficientData, confidence := 0 }, initStrat, false) ∧
    calculateDonchianChannel defaultCfg
        [{ time := 9, open_ := 2000, high := 2001, low := 1999, close := 2000 }] = none := by
  have h := insufficientData_soft_no_signal defaultCfg initStrat
    { price := 2000, adx := some 30, rsi := some 50 }
    [{ time := 9, open_ := 2000, high := 2001, low := 1999, close := 2000 }] none
    rfl (by decide)
  exact ⟨h.1, h.2 (by decide)⟩

/-- Claim C8: with at least lookback+1 completed candles, the Donchian
channel is exactly the extrema (maximum of highs, minimum of lows) over the
lookback bars immediately preceding the newest bar, the newest bar itself
excluded: the channel values are attained on that window and bound every
bar of it, and the window has exactly lookback bars. -/
theorem donchian_extrema_over_preceding_window (cfg : Cfg) (candles : List Candle)
    (hlb : 1 ≤ cfg.BREAKOUT_LOOKBACK)
    (hlen : cfg.BREAKOUT_LOOKBACK + 1 ≤ candles.length) :
    ∃ ch, calculateDonchianChannel cfg candles = some ch ∧
      (windowC8 candles cfg.BREAKOUT_LOOKBACK).length = cfg.BREAKOUT_LOOKBACK ∧
      ch.high ∈ (windowC8 candles cfg.BREAKOUT_LOOKBACK).map Candle.high ∧
      (∀ x ∈ (windowC8 candles cfg.BREAKOUT_LOOKBACK).map Candle.high, x ≤ ch.high) ∧
      ch.low ∈ (windowC8 candles cfg.BREAKOUT_LOOKBACK).map Candle.low ∧
      (∀ x ∈ (windowC8 candles cfg.BREAKOUT_LOOKBACK).map Candle.low, ch.low ≤ x) := by
  have hwl : (windowC8 candles cfg.BREAKOUT_LOOKBACK).length = cfg.BREAKOUT_LOOKBACK :=
    windowC8_length candles cfg.BREAKOUT_LOOKBACK hlen
  have hse : sliceLastWindow candles (cfg.BREAKOUT_LOOKBACK + 1)
      = windowC8 candles cfg.BREAKOUT_LOOKBACK :=
    sliceLastWindow_eq_windowC8 candles cfg.BREAKOUT_LOOKBACK hlen
  unfold calculateDonchianChannel
  rw [if_neg (by omega), hse]
  cases hw : windowC8 candles cfg.BREAKOUT_LOOKBACK with
  | nil => rw [hw] at hwl; simp at hwl; omega
  | cons c rest =>
      rw [hw] at hwl
      have hmax : rest.foldl (fun a x => max a x.high) c.high
          = (rest.map Candle.high).foldl max c.high :=
        (List.foldl_map Candle.high max rest c.high).symm
      have hmin : rest.foldl (fun a x => min a x.low) c.low
          = (rest.map Candle.low).foldl min c.low :=
        (List.foldl_map Candle.low min rest c.low).symm
      refine ⟨_, rfl, hwl, ?_, ?_, ?_, ?_⟩
      · show rest.foldl (fun a x => max a x.high) c.high ∈ (c :: rest).map Candle.high
        rw [hmax, List.map_cons]
        rcases foldl_max_mem (rest.map Candle.high) c.high with h | h
        · rw [h]; exact List.mem_cons_self _ _
        · exact List.mem_cons_of_mem _ h
      · intro x hx
        show x ≤ rest.foldl (fun a x => max a x.high) c.high
        rw [hmax]
        rw [List.map_cons] at hx
        rcases List.mem_cons.mp hx with h | h
        · subst h; exact le_foldl_max (rest.map Candle.high) c.high
        · exact foldl_max_ub (rest.map Candle.high) c.high x h
      · show rest.foldl (fun a x => min a x.low) c.low ∈ (c :: rest).map Candle.low
        rw [hmin, List.map_cons]
        rcases foldl_min_mem (rest.map Candle.low) c.low with h | h
        · rw [h]; exact List.mem_cons_self _ _
        · exact List.mem_cons_of_mem _ h
      · intro x hx
        show rest.foldl (fun a x => min a x.low) c.low ≤ x
        rw [hmin]
        rw [List.map_cons] at hx
        rcases List.mem_cons.mp hx with h | h
        · subst h; exact foldl_min_le (rest.map Candle.low) c.low
        · exact foldl_min_lb (rest.map Candle.low) c.low x h

/-- Eleven concrete candles (default lookback 10 needs at least 11). -/
def c8list : List Candle :=
  (List.range 11).map (fun i => { time := i, open_ := 2000, high := 2000 + i,
                                  low := 1990 - i, close := 2000 })

/-- Witness for C8 at the default configuration and c8list. -/
theorem donchian_extrema_over_preceding_window_witness :
    ∃ ch, calculateDonchianChannel defaultCfg c8list = some ch ∧
      (windowC8 c8list defaultCfg.BREAKOUT_LOOKBACK).length = defaultCfg.BREAKOUT_LOOKBACK ∧
      ch.high ∈ (windowC8 c8list defaultCfg.BREAKOUT_LOOKBACK).map Candle.high ∧
      (∀ x ∈ (windowC8 c8list defaultCfg.BREAKOUT_LOOKBACK).map Candle.high, x ≤ ch.high) ∧
      ch.low ∈ (windowC8 c8list defaultCfg.BREAKOUT_LOOKBACK).map Candle.low ∧
      (∀ x ∈ (windowC8 c8list defaultCfg.BREAKOUT_LOOKBACK).map Candle.low, ch.low ≤ x) :=
  donchian_extrema_over_preceding_window defaultCfg c8list (by decide) (by decide)

/-- A checkRealtimeMTFEntry call either clears the realtime pending entry
or keeps it and replaces the best pullback by its mtfBestUpdate. -/
lemma mtf_post_cases (cfg : Cfg) (s : StratState) (p : Rat) (now : Int) :
    (checkRealtimeMTFEntry cfg s p now).2.realtimeMTFPending = none ∨
    ((checkRealtimeMTFEntry cfg s p now).2.realtimeMTFPending = s.realtimeMTFPending ∧
      ∀ d, s.realtimeMTFPending = some d →
        (checkRealtimeMTFEntry cfg s p now).2.realtimeMTFBestPullback
          = some (mtfBestUpdate (decide (d = Dir.LONG)) s.realtimeMTFBestPullback p)) := by
  rcases hs : s.realtimeMTFPending with _ | d'
  · left
    simp [checkRealtimeMTFEntry, hs]
  · simp only [checkRealtimeMTFEntry, hs]
    split
    · left; simp [clearRealtimeMTF]
    · split
      · right
        refine ⟨rfl, ?_⟩
        intro d hd
        injection hd with hd
        subst hd
        rfl
      · split
        · right
          refine ⟨rfl, ?_⟩
          intro d hd
          injection hd with hd
          subst hd
          rfl
        · split
          · right
            refine ⟨rfl, ?_⟩
            intro d hd
            injection hd with hd
            subst hd
            rfl
          · left; simp [clearRealtimeMTF]

/-- The best-pullback update never moves against a pending LONG. -/
lemma mtfBestUpdate_le (b0 p : Rat) : mtfBestUpdate true (some b0) p ≤ b0 := by
  show (if p < b0 then p else b0) ≤ b0
  split
  · linarith
  · exact le_refl b0

/-- The best-pullback update never moves against a pending SHORT. -/
lemma le_mtfBestUpdate (b0 p : Rat) : b0 ≤ mtfBestUpdate false (some b0) p := by
  show b0 ≤ (if b0 < p then p else b0)
  split
  · linarith
  · exact le_refl b0

/-- One checkRealtimeMTFEntry call preserves the invariant that, while the
realtime pending entry survives with direction d, the tracked best pullback
price exists and has only ever moved favorably relative to a reference b. -/
lemma mtf_step_preserves_best (cfg : Cfg) (d : Dir) (b : Rat) (s : StratState)
    (p : Rat) (now : Int)
    (hInv : s.realtimeMTFPending = some d →
      ∃ b0, s.realtimeMTFBestPullback = some b0 ∧
        (d = Dir.LONG → b0 ≤ b) ∧ (d = Dir.SHORT → b ≤ b0)) :
    (checkRealtimeMTFEntry cfg s p now).2.realtimeMTFPending = some d →
      ∃ b0, (checkRealtimeMTFEntry cfg s p now).2.realtimeMTFBestPullback = some b0 ∧
        (d = Dir.LONG → b0 ≤ b) ∧ (d = Dir.SHORT → b ≤ b0) := by
  intro hpost
  rcases mtf_post_cases cfg s p now with hnone | ⟨hkeep, hbest⟩
  · rw [hnone] at hpost; cases hpost
  · have hs : s.realtimeMTFPending = some d := by rw [← hkeep]; exact hpost
    obtain ⟨b0, hb0, hL, hS⟩ := hInv hs
    rw [hbest d hs, hb0]
    cases d with
    | LONG =>
        refine ⟨_, rfl, ?_, ?_⟩
        · intro _
          exact le_trans (mtfBestUpdate_le b0 p) (hL rfl)
        · intro h
          exact absurd h (by decide)
    | SHORT =>
        refine ⟨_, rfl, ?_, ?_⟩
        · intro h
          exact absurd h (by decide)
        · intro _
          exact le_trans (hS rfl) (le_mtfBestUpdate b0 p)

/-- Claim C9: while the real-time MTF entry stays pending across any
sequence of checkRealtimeMTFEntry calls, the tracked best pullback price
only ever moves to a more favorable value — it never increases for a
pending LONG and never decreases for a pending SHORT. -/
theorem realtimeMTF_bestPullback_monotone (cfg : Cfg) (s : StratState) (d : Dir) (b : Rat)
    (inputs : List (Rat × Int))
    (_hp : s.realtimeMTFPending = some d)
    (hb : s.realtimeMTFBestPullback = some b) :
    (runMTFCalls cfg s inputs).realtimeMTFPending = some d →
      ∃ b0, (runMTFCalls cfg s inputs).realtimeMTFBestPullback = some b0 ∧
        (d = Dir.LONG → b0 ≤ b) ∧ (d = Dir.SHORT → b ≤ b0) := by
  have main : ∀ (l : List (Rat × Int)) (st : StratState),
      (st.realtimeMTFPending = some d →
        ∃ b0, st.realtimeMTFBestPullback = some b0 ∧
          (d = Dir.LONG → b0 ≤ b) ∧ (d = Dir.SHORT → b ≤ b0)) →
      ((runMTFCalls cfg st l).realtimeMTFPending = some d →
        ∃ b0, (runMTFCalls cfg st l).realtimeMTFBestPullback = some b0 ∧
          (d = Dir.LONG → b0 ≤ b) ∧ (d = Dir.SHORT → b ≤ b0)) := by
    intro l
    induction l with
    | nil => intro st h; exact h
    | cons i t ih =>
        intro st h
        have hstep := mtf_step_preserves_best cfg d b st i.1 i.2 h
        simp only [runMTFCalls, List.foldl_cons] at *
        exact ih _ hstep
  exact main inputs s
    (fun _ => ⟨b, hb, fun _ => le_refl b, fun _ => le_refl b⟩)

/-- A concrete pending-LONG realtime MTF state (breakout at 2010,
confirmed at t = 0, best pullback 2005 so far). -/
def c9state : StratState :=
  { initStrat with realtimeMTFPending := some Dir.LONG,
                   realtimeMTFBreakoutPrice := some 2010,
                   realtimeMTFTime := some 0,
                   realtimeMTFBestPullback := some 2005 }

/-- Witness for C9: a pending LONG with best pullback 2005 stays pending
across two calls and its best pullback never increases. -/
theorem realtimeMTF_bestPullback_monotone_witness :
    ∃ b0, (runMTFCalls defaultCfg c9state
        [(2003, 1000), (2003, 2000)]).realtimeMTFBestPullback = some b0 ∧
      (Dir.LONG = Dir.LONG → b0 ≤ 2005) ∧ (Dir.LONG = Dir.SHORT → 2005 ≤ b0) :=
  by
  refine realtimeMTF_bestPullback_monotone defaultCfg c9state
    Dir.LONG 2005 [(2003, 1000), (2003, 2000)] rfl rfl ?_
  decide!

/-- The trailing-stop block never touches the trade's units. -/
lemma trailingBlock_units (cfg : Cfg) (t : Tracked) (price : Rat) (modifyOk : Bool) :
    (trailingBlock cfg t price modifyOk).units = t.units := by
  unfold trailingBlock
  dsimp only
  repeat' split
  all_goals rfl

/-- For a LONG position the trailing-stop block never lowers the stored
current stop. -/
lemma trailingBlock_mono_long (cfg : Cfg) (t : Tracked) (price : Rat) (modifyOk : Bool)
    (h : 0 < t.units) :
    t.currentStopLoss ≤ (trailingBlock cfg t price modifyOk).currentStopLoss := by
  unfold trailingBlock
  dsimp only
  simp only [if_pos h]
  repeat' split
  all_goals first
    | exact le_refl _
    | exact le_of_lt (by assumption)

/-- For a SHORT position the trailing-stop block never raises the stored
current stop. -/
lemma trailingBlock_mono_short (cfg : Cfg) (t : Tracked) (price : Rat) (modifyOk : Bool)
    (h : t.units < 0) :
    (trailingBlock cfg t price modifyOk).currentStopLoss ≤ t.currentStopLoss := by
  unfold trailingBlock
  dsimp only
  simp only [if_neg (not_lt.mpr (le_of_lt h))]
  repeat' split
  all_goals first
    | exact le_refl _
    | exact le_of_lt (by assumption)

/-- One monitorPositions tick on a tracked trade never touches the trade's
units. -/
lemma monitorTradeTick_units (cfg : Cfg) (t : Tracked) (inp : MonInput) :
    (monitorTradeTick cfg t inp).units = t.units := by
  unfold monitorTradeTick
  dsimp only
  repeat' split
  all_goals first
    | rfl
    | exact trailingBlock_units cfg _ inp.price2 inp.modifyOk

/-- One monitorPositions tick never loosens the stored current stop, in
either direction (the staged-TP block never writes currentStopLoss). -/
lemma monitorTradeTick_mono (cfg : Cfg) (t : Tracked) (inp : MonInput) :
    (0 < t.units → t.currentStopLoss ≤ (monitorTradeTick cfg t inp).currentStopLoss) ∧
    (t.units < 0 → (monitorTradeTick cfg t inp).currentStopLoss ≤ t.currentStopLoss) := by
  unfold monitorTradeTick
  dsimp only
  split
  · split
    · split
      · split
        · exact ⟨fun _ => le_refl _, fun _ => le_refl _⟩
        · split
          · exact ⟨fun h => trailingBlock_mono_long cfg _ inp.price2 inp.modifyOk h,
                   fun h => trailingBlock_mono_short cfg _ inp.price2 inp.modifyOk h⟩
          · exact ⟨fun h => trailingBlock_mono_long cfg t inp.price2 inp.modifyOk h,
                   fun h => trailingBlock_mono_short cfg t inp.price2 inp.modifyOk h⟩
      · exact ⟨fun h => trailingBlock_mono_long cfg t inp.price2 inp.modifyOk h,
               fun h => trailingBlock_mono_short cfg t inp.price2 inp.modifyOk h⟩
    · split
      · split
        · exact ⟨fun _ => le_refl _, fun _ => le_refl _⟩
        · split
          · exact ⟨fun h => trailingBlock_mono_long cfg _ inp.price2 inp.modifyOk h,
                   fun h => trailingBlock_mono_short cfg _ inp.price2 inp.modifyOk h⟩
          · exact ⟨fun h => trailingBlock_mono_long cfg t inp.price2 inp.modifyOk h,
                   fun h => trailingBlock_mono_short cfg t inp.price2 inp.modifyOk h⟩
      · exact ⟨fun h => trailingBlock_mono_long cfg t inp.price2 inp.modifyOk h,
               fun h => trailingBlock_mono_short cfg t inp.price2 inp.modifyOk h⟩
  · exact ⟨fun h => trailingBlock_mono_long cfg t inp.price2 inp.modifyOk h,
           fun h => trailingBlock_mono_short cfg t inp.price2 inp.modifyOk h⟩

/-- Claim C2: across any sequence of monitoring ticks with arbitrary prices
and broker outcomes, tracked.currentStopLoss is non-decreasing for a LONG
position and non-increasing for a SHORT one — the trailing candidate is
applied only when it improves the current stop. -/
theorem trailingStop_monotone (cfg : Cfg) (t : Tracked) (inputs : List MonInput) :
    (0 < t.units → t.currentStopLoss ≤ (runMonitor cfg t inputs).currentStopLoss) ∧
    (t.units < 0 → (runMonitor cfg t inputs).currentStopLoss ≤ t.currentStopLoss) := by
  induction inputs generalizing t with
  | nil => exact ⟨fun _ => le_refl _, fun _ => le_refl _⟩
  | cons i rest ih =>
      obtain ⟨hl, hs⟩ := monitorTradeTick_mono cfg t i
      have hu := monitorTradeTick_units cfg t i
      have hrest := ih (monitorTradeTick cfg t i)
      simp only [runMonitor, List.foldl_cons] at *
      constructor
      · intro hpos
        exact le_trans (hl hpos) (hrest.1 (by rw [hu]; exact hpos))
      · intro hneg
        exact le_trans (hrest.2 (by rw [hu]; exact hneg)) (hs hneg)

/-- A concrete LONG breakout position for the C2 witness (entry 2000, stop
1994.50, trailing active after TP1). -/
def c2tracked : Tracked where
  units := 100
  entryPrice := 2000
  takeProfit1 := 2003
  takeProfit2 := 2005
  tp1Hit := true
  bestPrice := 2000
  currentStopLoss := 1994 + 1/2
  isBreakoutTrade := true

/-- Witness for C2: a LONG position monitored for one tick with price 2006
keeps a non-decreasing stored stop. -/
theorem trailingStop_monotone_witness :
    c2tracked.currentStopLoss ≤
      (runMonitor defaultCfg c2tracked
        [{ price1 := 2006, price2 := 2006, partialOk := true, modifyOk := true }]).currentStopLoss :=
  (trailingStop_monotone defaultCfg c2tracked
    [{ price1 := 2006, price2 := 2006, partialOk := true, modifyOk := true }]).1 (by decide)

/-- Claim C3: in both pullback refiners, when the pullback and
renewed-movement conditions are met but the entry/current price has
overrun the original breakout price by more than the fixed $1.00
tolerance, the call returns a no-signal/pending result and leaves the
pending-entry state uncleared (evaluateH1Entry only advances its bar
counter; checkRealtimeMTFEntry only updates the best pullback). -/
theorem chaseGuard_keeps_pending :
    (∀ (cfg : Cfg) (s : StratState) (l : List Candle),
      s.pendingSignal ≠ none → cfg.ENABLE_MTF = true →
      s.h1CandlesChecked + 1 ≤ cfg.MTF_MAX_WAIT_CANDLES →
      cfg.MTF_EMA_PERIOD + 5 ≤ l.length →
      h1entryFound (decide (s.pendingSignal = some Dir.LONG))
        (h1pullbackLevel (decide (s.pendingSignal = some Dir.LONG))
          (calculateEMA (l.map Candle.close) cfg.MTF_EMA_PERIOD)
          (h1pullbackTarget cfg (decide (s.pendingSignal = some Dir.LONG))
            (s.pendingBreakoutPrice.getD 0)))
        (lastCandleOf l) = true →
      overshootChasing (decide (s.pendingSignal = some Dir.LONG))
        (lastCandleOf l).close (s.pendingBreakoutPrice.getD 0) = true →
      evaluateH1Entry cfg s (some l)
        = (none, { s with h1CandlesChecked := s.h1CandlesChecked + 1 }, false)) ∧
    (∀ (cfg : Cfg) (s : StratState) (d : Dir) (p : Rat) (now : Int),
      s.realtimeMTFPending = some d →
      now - s.realtimeMTFTime.getD 0 ≤ mtfMaxWaitMs cfg →
      pipsToPrice cfg.MTF_PULLBACK_PIPS ≤
        mtfPullbackAmount (decide (d = Dir.LONG)) (s.realtimeMTFBreakoutPrice.getD 0)
          (mtfBestUpdate (decide (d = Dir.LONG)) s.realtimeMTFBestPullback p) →
      mtfMovingFavorably (decide (d = Dir.LONG)) p
        (mtfBestUpdate (decide (d = Dir.LONG)) s.realtimeMTFBestPullback p) = true →
      overshootChasing (decide (d = Dir.LONG)) p (s.realtimeMTFBreakoutPrice.getD 0) = true →
      checkRealtimeMTFEntry cfg s p now
        = ({ signal := none, pending := true, reason := .chasingMove },
           { s with realtimeMTFBestPullback := some (mtfBestUpdate (decide (d = Dir.LONG)) s.realtimeMTFBestPullback p) })) := by
  constructor
  · intro cfg s l hpend hmtf hcnt hlen hfound hchase
    unfold evaluateH1Entry
    rw [if_neg (by simp [hpend, hmtf])]
    dsimp only
    rw [if_neg (by omega)]
    rw [if_neg (by omega)]
    rw [if_pos hfound, if_pos hchase]
  · intro cfg s d p now hpend htime hpull hfav hchase
    unfold checkRealtimeMTFEntry
    rw [hpend]
    dsimp only
    rw [if_neg (not_lt.mpr htime)]
    rw [if_neg (not_lt.mpr hpull)]
    rw [if_neg (by simp [hfav])]
    rw [if_pos hchase]

/-- Concrete pending-LONG candle-close state for the C3 witness. -/
def c3strat : StratState :=
  { initStrat with pendingSignal := some Dir.LONG,
                   pendingSignalTime := some 100,
                   pendingBreakoutPrice := some 2010,
                   h1CandlesChecked := 0 }

/-- Twenty-five entry-timeframe candles whose last bar is a bullish bar
closing at 2020, far past the 2010 breakout (a chasing move). -/
def c3candles : List Candle :=
  (List.range 24).map (fun i => { time := i, open_ := 2020, high := 2021,
                                  low := 2015, close := 2020 })
    ++ [{ time := 24, open_ := 2014, high := 2021, low := 2015, close := 2020 }]

/-- Concrete pending-LONG realtime state for the C3 witness: breakout 2010,
best pullback 2005, price 2012 bounces favorably but overruns the breakout
by $2. -/
def c3rtstrat : StratState :=
  { initStrat with realtimeMTFPending := some Dir.LONG,
                   realtimeMTFBreakoutPrice := some 2010,
                   realtimeMTFTime := some 0,
                   realtimeMTFBestPullback := some 2005 }

/-- Witness for C3: both chase-guard paths at concrete inputs. -/
theorem chaseGuard_keeps_pending_witness :
    evaluateH1Entry defaultCfg c3strat (some c3candles)
      = (none, { c3strat with h1CandlesChecked := c3strat.h1CandlesChecked + 1 }, false) ∧
    checkRealtimeMTFEntry defaultCfg c3rtstrat 2012 1000
      = ({ signal := none, pending := true, reason := .chasingMove },
         { c3rtstrat with realtimeMTFBestPullback := some (mtfBestUpdate (decide (Dir.LONG = Dir.LONG)) c3rtstrat.realtimeMTFBestPullback 2012) }) := by
  constructor
  · refine chaseGuard_keeps_pending.1 defaultCfg c3strat c3candles ?_ rfl ?_ ?_ ?_ ?_
    · decide
    · decide
    · decide
    · decide!
    · decide!
  · refine chaseGuard_keeps_pending.2 defaultCfg c3rtstrat Dir.LONG 2012 1000 rfl ?_ ?_ ?_ ?_
    · decide!
    · decide!
    · decide!
    · decide!

/-- evaluateH1Entry never touches the StrategyMemory channel and timestamp
fields (it mutates only the pending-signal fields and the wait counter). -/
lemma evaluateH1Entry_preserves_memory (cfg : Cfg) (s : StratState)
    (h1Candles : Option (List Candle)) :
    (evaluateH1Entry cfg s h1Candles).2.1.previousHigh = s.previousHigh ∧
    (evaluateH1Entry cfg s h1Candles).2.1.previousLow = s.previousLow ∧
    (evaluateH1Entry cfg s h1Candles).2.1.lastCandleTime = s.lastCandleTime := by
  unfold evaluateH1Entry
  dsimp only
  repeat' split
  all_goals exact ⟨rfl, rfl, rfl⟩

/-- Equation form of the preceding lemma, for rewriting through a match. -/
lemma evaluateH1Entry_preserves_memory_eq (cfg : Cfg) (s : StratState)
    (h1Candles : Option (List Candle)) (res : Option EntryRes) (s' : StratState) (sv : Bool)
    (h : evaluateH1Entry cfg s h1Candles = (res, s', sv)) :
    s'.previousHigh = s.previousHigh ∧ s'.previousLow = s.previousLow ∧
    s'.lastCandleTime = s.lastCandleTime := by
  have hmem := evaluateH1Entry_preserves_memory cfg s h1Candles
  rw [h] at hmem
  exact hmem

/-- Claim C4 (amended): when no candle-close pending signal is being
waited on, re-calling evaluateSetup with the memory already holding the
newest bar timestamp (and an initialized channel) returns the no-new-candle
no-signal result and leaves the whole strategy state unchanged, without
persisting. -/
theorem sameBar_noop (cfg : Cfg) (s : StratState) (analysis : Analysis)
    (candles : List Candle) (h1Candles : Option (List Candle)) (ph pl : Rat) (ch : Channel)
    (hp : s.pendingSignal = none)
    (hH : s.previousHigh = some ph) (hL : s.previousLow = some pl)
    (hlen : cfg.BREAKOUT_LOOKBACK + 1 ≤ candles.length)
    (hch : calculateDonchianChannel cfg candles = some ch)
    (ht : s.lastCandleTime = some (lastCandleOf candles).time) :
    evaluateSetup cfg s analysis candles h1Candles
      = ({ signal := none, reason := .noNewCandle, confidence := 0 }, s, false) := by
  unfold evaluateSetup
  rw [if_neg (by simp [hp])]
  rw [if_neg (by omega)]
  dsimp only
  rw [hch]
  dsimp only
  rw [if_neg (by simp [hH, hL])]
  rw [if_pos ht]

/-- The state of C4's counterexample: a pending LONG breakout so that the
same-bar re-evaluation takes the waiting-for-entry path instead. -/
def c4strat : StratState :=
  { initStrat with pendingSignal := some Dir.LONG,
                   pendingSignalTime := some 100,
                   pendingBreakoutPrice := some 2010,
                   previousHigh := some 2001,
                   previousLow := some 1999,
                   lastCandleTime := some 100 }

/-- Counterexample to C4 as stated: with a pending MTF signal active, the
re-evaluation on the same latest bar (lastCandleTime equals the newest
candle's time) reports the waiting-for-entry reason, not no-new-candle. -/
theorem sameBar_noop_counterexample :
    c4strat.lastCandleTime
      = some (lastCandleOf [{ time := 100, open_ := 2000, high := 2001,
                              low := 1999, close := 2000 }]).time ∧
    (evaluateSetup defaultCfg c4strat { price := 2000, adx := some 30, rsi := some 50 }
        [{ time := 100, open_ := 2000, high := 2001, low := 1999, close := 2000 }]
        (some [])).1.reason = Reason.waitingH1 ∧
    Reason.waitingH1 ≠ Reason.noNewCandle := by
  refine ⟨rfl, ?_, by decide⟩
  decide

/-- Claim C5 (amended): every evaluateSetup call that reaches the
evaluation of a new bar — no pending-signal wait, enough candles, and
either uninitialized memory or a fresh newest-bar timestamp — stores the
freshly computed channel into previousHigh/previousLow, stores the newest
bar's timestamp into lastCandleTime, and persists (saveState) before
returning, whatever the signal outcome; the early-return paths (pending
wait, insufficient data, same bar) leave channel and timestamp unchanged. -/
theorem memory_update_on_new_bar (cfg : Cfg) (s : StratState) (analysis : Analysis)
    (candles : List Candle) (h1Candles : Option (List Candle)) (ch : Channel)
    (hp : s.pendingSignal = none)
    (hlen : cfg.BREAKOUT_LOOKBACK + 1 ≤ candles.length)
    (hch : calculateDonchianChannel cfg candles = some ch)
    (hnew : s.previousHigh = none ∨ s.previousLow = none ∨
            s.lastCandleTime ≠ some (lastCandleOf candles).time) :
    (evaluateSetup cfg s analysis candles h1Candles).2.1.previousHigh = some ch.high ∧
    (evaluateSetup cfg s analysis candles h1Candles).2.1.previousLow = some ch.low ∧
    (evaluateSetup cfg s analysis candles h1Candles).2.1.lastCandleTime
      = some (lastCandleOf candles).time ∧
    (evaluateSetup cfg s analysis candles h1Candles).2.2 = true := by
  unfold evaluateSetup
  rw [if_neg (by simp [hp])]
  rw [if_neg (by omega)]
  dsimp only
  rw [hch]
  dsimp only
  by_cases hfr : s.previousHigh = none ∨ s.previousLow = none
  · rw [if_pos hfr]
    exact ⟨rfl, rfl, rfl, rfl⟩
  · rw [if_neg hfr]
    have hnt : s.lastCandleTime ≠ some (lastCandleOf candles).time := by
      rcases hnew with h | h | h
      · exact absurd (Or.inl h) hfr
      · exact absurd (Or.inr h) hfr
      · exact h
    rw [if_neg hnt]
    split
    · -- a signal on the new bar
      split
      · -- MTF enabled: pending signal stored, optional immediate H1 check
        split
        · -- h1 candles present: result comes out of evaluateH1Entry
          split
          all_goals rename_i heq
          all_goals obtain ⟨e1, e2, e3⟩ :=
            evaluateH1Entry_preserves_memory_eq _ _ _ _ _ _ heq
          all_goals exact ⟨e1, e2, e3, rfl⟩
        · exact ⟨rfl, rfl, rfl, rfl⟩
      · exact ⟨rfl, rfl, rfl, rfl⟩
    · exact ⟨rfl, rfl, rfl, rfl⟩

/-- The state of C5's counterexample: initialized memory whose stored
timestamp differs from the newest bar's. -/
def c5strat : StratState :=
  { initStrat with previousHigh := some 2001, previousLow := some 1999,
                   lastCandleTime := some 5 }

/-- Counterexample to C5 as stated: with a single candle (fewer than
lookback+1) the call returns the insufficient-data result, leaving the
state untouched (timestamp still 5, not the newest bar's 9) and without
persisting. -/
theorem memory_update_counterexample :
    (evaluateSetup defaultCfg c5strat { price := 2000, adx := some 30, rsi := some 50 }
        [{ time := 9, open_ := 2000, high := 2001, low := 1999, close := 2000 }] none).2.1
      = c5strat ∧
    (evaluateSetup defaultCfg c5strat { price := 2000, adx := some 30, rsi := some 50 }
        [{ time := 9, open_ := 2000, high := 2001, low := 1999, close := 2000 }] none).2.2
      = false ∧
    c5strat.lastCandleTime
      ≠ some (lastCandleOf [{ time := 9, open_ := 2000, high := 2001,
                              low := 1999, close := 2000 }]).time := by
  refine ⟨?_, ?_, by decide⟩
  · decide
  · decide

/-- Eleven flat candles, times 0..10, all with high 2001 / low 1999. -/
def c45candles : List Candle :=
  (List.range 11).map (fun i => { time := i, open_ := 2000, high := 2001,
                                  low := 1999, close := 2000 })

/-- Memory that has already processed bar 10 of c45candles. -/
def c4wstrat : StratState :=
  { initStrat with previousHigh := some 2001, previousLow := some 1999,
                   lastCandleTime := some 10 }

/-- Witness for the amended C4 at concrete inputs. -/
theorem sameBar_noop_witness :
    evaluateSetup defaultCfg c4wstrat { price := 2000, adx := some 30, rsi := some 50 }
        c45candles none
      = ({ signal := none, reason := .noNewCandle, confidence := 0 }, c4wstrat, false) := by
  refine sameBar_noop defaultCfg c4wstrat _ c45candles none 2001 1999
    { high := 2001, low := 1999 } rfl rfl rfl (by decide) ?_ (by decide)
  decide!

/-- Memory initialized from an older bar (timestamp 5). -/
def c5wstrat : StratState :=
  { initStrat with previousHigh := some 2001, previousLow := some 1999,
                   lastCandleTime := some 5 }

/-- Witness for the amended C5 at concrete inputs. -/
theorem memory_update_on_new_bar_witness :
    (evaluateSetup defaultCfg c5wstrat { price := 2000, adx := some 30, rsi := some 50 }
        c45candles none).2.1.previousHigh
      = some (Channel.mk 2001 1999).high ∧
    (evaluateSetup defaultCfg c5wstrat { price := 2000, adx := some 30, rsi := some 50 }
        c45candles none).2.1.previousLow
      = some (Channel.mk 2001 1999).low ∧
    (evaluateSetup defaultCfg c5wstrat { price := 2000, adx := some 30, rsi := some 50 }
        c45candles none).2.1.lastCandleTime
      = some (lastCandleOf c45candles).time ∧
    (evaluateSetup defaultCfg c5wstrat { price := 2000, adx := some 30, rsi := some 50 }
        c45candles none).2.2 = true := by
  refine memory_update_on_new_bar defaultCfg c5wstrat _ c45candles none
    { high := 2001, low := 1999 } rfl (by decide) ?_ (Or.inr (Or.inr (by decide)))
  decide!

/-- A checkRealtimeMTFEntry call whose result is not pending has dropped
the realtime MTF entry: either there was none, it timed out, or it was
consumed by an emitted entry. -/
lemma mtf_not_pending_clears (cfg : Cfg) (s : StratState) (p : Rat) (now : Int)
    (r : RTMTFRes) (s' : StratState)
    (h : checkRealtimeMTFEntry cfg s p now = (r, s')) (hp : r.pending = false) :
    s'.realtimeMTFPending = none := by
  rcases hs : s.realtimeMTFPending with _ | d
  · rw [checkRealtimeMTFEntry, hs] at h
    cases h
    exact hs
  · rw [checkRealtimeMTFEntry, hs] at h
    dsimp only at h
    split at h
    · cases h
      rfl
    · split at h
      · cases h
        cases hp
      · split at h
        · cases h
          cases hp
        · split at h
          · cases h
            cases hp
          · cases h
            rfl

/-- Only the confirmed-breakout MTF branch of checkRealtimeBreakout (the
one reporting pendingMTF) writes the realtime MTF fields. -/
lemma rtb_mtf_cases (cfg : Cfg) (s : StratState) (p : Rat) (adx rsi : Option Rat)
    (now : Int) :
    (checkRealtimeBreakout cfg s p adx rsi now).1.pendingMTF = true ∨
    (checkRealtimeBreakout cfg s p adx rsi now).2.realtimeMTFPending
      = s.realtimeMTFPending := by
  unfold checkRealtimeBreakout
  dsimp only
  repeat' split
  all_goals first
    | (left; rfl)
    | (right; rfl)

/-- A checkRealtimeBreakout call that does not report pendingMTF leaves the
realtime MTF pending entry untouched. -/
lemma rtb_preserves_mtf (cfg : Cfg) (s : StratState) (p : Rat) (adx rsi : Option Rat)
    (now : Int) (r : RTBreakRes) (s' : StratState)
    (h : checkRealtimeBreakout cfg s p adx rsi now = (r, s'))
    (hpm : r.pendingMTF = false) :
    s'.realtimeMTFPending = s.realtimeMTFPending := by
  rcases rtb_mtf_cases cfg s p adx rsi now with hL | hR
  · rw [h] at hL
    dsimp only at hL
    rw [hL] at hpm
    cases hpm
  · rw [h] at hR
    exact hR

/-- The breakout phase of a realtime tick, entered without a position and
without a realtime MTF pending entry, never produces a state holding both
an open position and a realtime MTF pending entry. -/
lemma realtimeBreakoutPhase_excl (cfg : Cfg) (bs : BotState) (inp : RTInput)
    (hm : bs.strat.realtimeMTFPending = none) (hpos : bs.positionOpen = false) :
    (realtimeBreakoutPhase cfg bs inp).positionOpen = true →
    (realtimeBreakoutPhase cfg bs inp).strat.realtimeMTFPending = none := by
  unfold realtimeBreakoutPhase
  split
  · intro hcon
    rw [hpos] at hcon
    cases hcon
  · split
    rename_i r s1 heq
    dsimp only
    split
    · intro hcon
      rw [hpos] at hcon
      cases hcon
    · split
      · intro hcon
        rw [hpos] at hcon
        cases hcon
      · rename_i hnp hnpm
        have hpm : r.pendingMTF = false := by
          cases hr : r.pendingMTF
          · rfl
          · exact absurd hr hnpm
        have hkeep : s1.realtimeMTFPending = bs.strat.realtimeMTFPending :=
          rtb_preserves_mtf cfg bs.strat inp.price inp.adx inp.rsi inp.now r s1 heq hpm
        split
        · intro hcon
          rw [hpos] at hcon
          cases hcon
        · split
          · intro _
            exact hkeep.trans hm
          · intro hcon
            rw [hpos] at hcon
            cases hcon

/-- Claim C1 (amended): a checkRealtimeBreakout bot tick never leaves a
state holding both an open position and a non-null realtime MTF pending
entry — the tick clears realtimeMTFPending whenever a position is open and
consumes it before opening one.  (The full three-way exclusion of the
original claim fails: scanMarket can create the candle-close pendingSignal
while a position is open, see the counterexample.) -/
theorem realtime_tick_position_excludes_mtfPending (cfg : Cfg) (bs : BotState) (inp : RTInput) :
    (realtimeStep cfg bs inp).positionOpen = true →
    (realtimeStep cfg bs inp).strat.realtimeMTFPending = none := by
  unfold realtimeStep
  split
  · -- position already open: the tick clears any realtime MTF pending
    split
    · intro _
      simp [clearRealtimeMTF]
    · rename_i hne
      intro _
      exact not_ne_iff.mp hne
  · rename_i hnopen
    have hpos : bs.positionOpen = false := by
      cases hb : bs.positionOpen
      · rfl
      · exact absurd hb hnopen
    split
    · intro hcon
      rw [hpos] at hcon
      cases hcon
    · split
      · intro hcon
        rw [hpos] at hcon
        cases hcon
      · split
        · intro hcon
          rw [hpos] at hcon
          cases hcon
        · split
          · -- a realtime MTF entry is pending: feed it to the refiner
            split
            rename_i r s1 heq
            dsimp only
            split
            · intro hcon
              rw [hpos] at hcon
              cases hcon
            · rename_i hnp
              have hp : r.pending = false := by
                cases hr : r.pending
                · rfl
                · exact absurd hr hnp
              have hclear : s1.realtimeMTFPending = none :=
                mtf_not_pending_clears cfg bs.strat inp.price inp.now r s1 heq hp
              split
              · split
                · intro _
                  exact hclear
                · intro hcon
                  rw [hpos] at hcon
                  cases hcon
              · exact realtimeBreakoutPhase_excl cfg _ inp hclear hpos
          · rename_i hne
            exact realtimeBreakoutPhase_excl cfg bs inp (not_ne_iff.mp hne) hpos

/-- Witness for the amended C1: from a state with an open position and a
stale realtime MTF pending entry, the tick leaves the pending cleared. -/
def c1wbot : BotState :=
  { strat := c9state, positionOpen := true, lastTradeCloseTime := none }

/-- Witness for the amended C1 at concrete inputs. -/
theorem realtime_tick_position_excludes_mtfPending_witness :
    (realtimeStep defaultCfg c1wbot
      { price := 2000, adx := some 30, rsi := some 50, now := 0, nowHour := 10,
        candlesOk := true, riskOk := true, orderOk := true }).strat.realtimeMTFPending
      = none :=
  realtime_tick_position_excludes_mtfPending defaultCfg c1wbot
    { price := 2000, adx := some 30, rsi := some 50, now := 0, nowHour := 10,
      candlesOk := true, riskOk := true, orderOk := true } (by decide)

/-- A flat completed candle at time i (high 2001 / low 1999 / close 2000). -/
def flatCandle (i : Nat) : Candle :=
  { time := i, open_ := 2000, high := 2001, low := 1999, close := 2000 }

/-- 101 flat candles, times 0..100 (scanMarket requires at least 100). -/
def baseCandles : List Candle := (List.range 101).map flatCandle

/-- A bullish breakout bar closing at 2010, above the 2001 channel high. -/
def candleB : Candle := { time := 101, open_ := 2005, high := 2011, low := 2004, close := 2010 }

/-- A second bullish breakout bar closing at 2012. -/
def candleC : Candle := { time := 102, open_ := 2007, high := 2013, low := 2006, close := 2012 }

/-- The primary-timeframe candle lists of the three scan ticks. -/
def candlesA : List Candle := baseCandles

/-- Candle list of the second scan tick (breakout bar appended). -/
def candlesB : List Candle := baseCandles ++ [candleB]

/-- Candle list of the third scan tick (second breakout bar appended). -/
def candlesC : List Candle := candlesB ++ [candleC]

/-- A flat bullish entry-timeframe candle (close 2009 above open 2008). -/
def h1Flat (i : Nat) : Candle :=
  { time := i, open_ := 2008, high := 2010, low := 2005, close := 2009 }

/-- 25 entry-timeframe candles whose last bar confirms a LONG pullback
entry at 2009 (below the 2010 breakout: not a chasing move). -/
def h1CandlesB : List Candle := (List.range 25).map h1Flat

/-- 25 entry-timeframe candles whose last bar is bearish, so no LONG entry
confirmation fires. -/
def h1CandlesC : List Candle :=
  (List.range 24).map h1Flat
    ++ [{ time := 24, open_ := 2010, high := 2010, low := 2005, close := 2009 }]

/-- The analysis observed at each scan tick: trending (ADX 30), neutral
RSI. -/
def anaFlat : Analysis := { price := 2000, adx := some 30, rsi := some 50 }

/-- First scan tick: initializes the strategy memory. -/
def scanInpA : ScanInput :=
  { analysis := anaFlat, candles := candlesA, h1Candles := some h1CandlesB,
    now := 0, nowHour := 10, riskOk := true, orderOk := true }

/-- Second scan tick: candle-close breakout whose immediate H1 refinement
fires, opening a position. -/
def scanInpB : ScanInput :=
  { analysis := anaFlat, candles := candlesB, h1Candles := some h1CandlesB,
    now := 0, nowHour := 10, riskOk := true, orderOk := true }

/-- Third scan tick: another candle-close breakout while the position from
tick two is still open — evaluateSetup stores pendingSignal before
scanMarket ever checks for an existing position. -/
def scanInpC : ScanInput :=
  { analysis := anaFlat, candles := candlesC, h1Candles := some h1CandlesC,
    now := 0, nowHour := 10, riskOk := true, orderOk := true }

/-- Counterexample to C1 as stated: the three-tick scanMarket trace reaches
a state with an open tracked position AND a non-null candle-close pending
signal — the claimed mutual exclusion does not hold, because scanMarket
runs evaluateSetup (which creates pendingSignal on a breakout) before its
open-position gate. -/
theorem position_and_pendingSignal_coexist :
    (runSteps defaultCfg initBot
      [BotStep.scan scanInpA, BotStep.scan scanInpB, BotStep.scan scanInpC]).positionOpen
      = true ∧
    (runSteps defaultCfg initBot
      [BotStep.scan scanInpA, BotStep.scan scanInpB, BotStep.scan scanInpC]).strat.pendingSignal
      = some Dir.LONG := by
  constructor
  · decide!
  · decide!

end OandaGold
